import Mathlib

/-!
Verification development for the chat client's connection-resilience and
message-consistency core (`src/hooks/useStompChat.js`).

The hook's mutable state (React state + refs) is embedded as one explicit
record, `ChatState`; each callback of the hook becomes a pure state
transformer.  Times are modelled as `Int` milliseconds; every call site of
`Date.now()` becomes an explicit `now` parameter.  ISO-8601 timestamp strings
are modelled by their parsed millisecond value (`Option Int`, `none` =
field absent).  JSON parsing of inbound frame bodies is modelled by an
`Option` payload (`none` = the `JSON.parse` call threw and the surrounding
`try/catch` dropped the frame).  The STOMP client object is modelled by
`ClientModel` (its `connected`/`active` flags and the list of frames it was
asked to publish); network effects (`syncPresence` fetches) are modelled as
separate transitions carrying the eventual query outcome.
-/

namespace StompChat

/-- Connection state, `useState('connecting')` at `useStompChat.js:42`. -/
inductive ConnStatus where
  | connecting
  | connected
  | reconnecting
  | disconnected
deriving DecidableEq

/-- A feed entry / inbound broadcast body.  Fields mirror the JS objects built
at `useStompChat.js:95-102` (system notices), `:286-291` (outbound payloads)
and whatever JSON arrives on `/topic/public`.  All fields are optional because
an inbound body is arbitrary parsed JSON.  `seq` models the JS `seq` field
read through `Number.isFinite` (absent / non-finite ↦ `none`). -/
structure Message where
  id : Option String := none
  seq : Option Int := none
  sender : Option String := none
  content : Option String := none
  createdAt : Option Int := none
  clientSentAt : Option Int := none
  system : Option Bool := none
deriving DecidableEq

/-- `toTs` inside `sortByTimestamp` (`useStompChat.js:67-70`):
`Date.parse(m?.createdAt ?? m?.clientSentAt ?? 0)` with a `Number.isFinite`
guard collapsing a failed parse to `0`.  Post-parse model: creation timestamp
if present, else send timestamp, else `0`. -/
def toTs (m : Message) : Int :=
  match m.createdAt with
  | some v => v
  | none =>
    match m.clientSentAt with
    | some v => v
    | none => 0

/-- `Number.isFinite(a?.seq) ? a.seq : 0` (`useStompChat.js:75-76`). -/
def toSeq (m : Message) : Int :=
  match m.seq with
  | some v => v
  | none => 0

/-- The comparator of `sortByTimestamp` (`useStompChat.js:72-78`) as a
boolean "less or equal": primary key `toTs`, tie broken by `toSeq`. -/
def feedLe (a b : Message) : Bool :=
  if toTs a = toTs b then decide (toSeq a ≤ toSeq b) else decide (toTs a < toTs b)

instance feedLeDecidable : DecidableRel (fun a b : Message => feedLe a b = true) :=
  fun a b => instDecidableEqBool (feedLe a b) true

/-- `sortByTimestamp` (`useStompChat.js:66-80`): a stable sort of the feed by
the comparator above.  `Array.prototype.sort` is stable and `feedLe` is a
total preorder, so any stable sort is an exact model; insertion sort is the
stable sort that computes by structural recursion. -/
def sortByTimestamp (list : List Message) : List Message :=
  list.insertionSort (fun a b => feedLe a b = true)

/-- Outbound publish payload (`useStompChat.js:286-291`). -/
structure SendPayload where
  userId : String
  sender : String
  content : String
  clientSentAt : Int
deriving DecidableEq

/-- The STOMP `Client` object as the hook observes it: its `connected` and
`active` flags plus the frames handed to `client.publish`. -/
structure ClientModel where
  connected : Bool
  active : Bool
  published : List SendPayload := []
deriving DecidableEq

/-- `ensureActivate` (`useStompChat.js:33-36`): no-op on a missing or already
active client, otherwise `client.activate()`. -/
def ensureActivate : Option ClientModel → Option ClientModel
  | none => none
  | some c => if c.active then some c else some { c with active := true }

/-- The hook's mutable state: the four `useState` values plus the refs that
the claims depend on (`useStompChat.js:40-62`).  `clientRef` is `client`;
`seenIdsRef` is `seenIds` (a set of ids, modelled as a duplicate-free-by-use
list); `recentSysMapRef` is `recentSysMap` (text ↦ last shown time). -/
structure ChatState where
  messages : List Message := []
  presenceCount : Int := 0
  connStatus : ConnStatus := ConnStatus.connecting
  connReason : String := ""
  client : Option ClientModel := none
  seenIds : List String := []
  sysSeq : Nat := 0
  isColdStart : Bool := true
  everConnected : Bool := false
  lastReconnectAt : Int := 0
  connectingAnnounced : Bool := false
  recentSysMap : List (String × Int) := []
deriving DecidableEq

/-- State at mount, before any callback has run (`useStompChat.js:40-62`
initialisers). -/
def initialState : ChatState := {}

/-- `recentSysMapRef.current.get(text)` (`Map.get`). -/
def lookupTs : List (String × Int) → String → Option Int
  | [], _ => none
  | (k, v) :: rest, key => if k = key then some v else lookupTs rest key

/-- `recentSysMapRef.current.set(text, now)` (`Map.set`: overwrite in place,
else append). -/
def insertTs : List (String × Int) → String → Int → List (String × Int)
  | [], key, v => [(key, v)]
  | (k, w) :: rest, key, v =>
    if k = key then (k, v) :: rest else (k, w) :: insertTs rest key v

/-- The synthetic id of a system notice: `system-{now}-{seq}`
(`useStompChat.js:90`). -/
def mkSystemId (now : Int) (seq : Nat) : String :=
  "system-" ++ toString now ++ "-" ++ toString seq

/-- The system feed entry built at `useStompChat.js:95-102`. -/
def sysMsg (now : Int) (text : String) (seq : Nat) : Message :=
  { id := some (mkSystemId now seq)
    seq := some (Int.ofNat seq)
    sender := some "SYSTEM"
    content := some text
    createdAt := some now
    system := some true }

/-- `pushSystemMessage` (`useStompChat.js:83-105`): skip if the same text was
shown less than 3000 ms ago (`map.get(text) || 0`); otherwise record the text
at `now`, build a system entry carrying the next per-session sequence number,
append it and re-sort the feed. -/
def pushSystemMessage (now : Int) (text : String) (s : ChatState) : ChatState :=
  let last : Int := (lookupTs s.recentSysMap text).getD 0
  if now - last < 3000 then s
  else
    { s with recentSysMap := insertTs s.recentSysMap text now
             sysSeq := s.sysSeq + 1
             messages := sortByTimestamp (s.messages ++ [sysMsg now text s.sysSeq]) }

/-- The JS truthiness test `if (id)` on `body?.id`
(`useStompChat.js:225-227`): absent and empty-string ids are falsy. -/
def idOf (body : Message) : Option String :=
  match body.id with
  | some i => if i = "" then none else some i
  | none => none

/-- The `/topic/public` subscription handler (`useStompChat.js:222-230`).
`frame = none` models a body `JSON.parse` rejected (the `catch {}` drops the
frame).  A truthy id already in `seenIds` ⇒ full early return; a truthy new
id is recorded; then the body is appended and the feed re-sorted. -/
def ingestPublic (frame : Option Message) (s : ChatState) : ChatState :=
  match frame with
  | none => s
  | some body =>
    match idOf body with
    | some i =>
      if i ∈ s.seenIds then s
      else { s with seenIds := i :: s.seenIds
                    messages := sortByTimestamp (s.messages ++ [body]) }
    | none => { s with messages := sortByTimestamp (s.messages ++ [body]) }

/-- The `/topic/presence` subscription handler (`useStompChat.js:214-219`).
`frame = none` = parse failure; `some none` = parsed body whose `count` is
not a number (`typeof body?.count === 'number'` fails); `some (some n)` =
numeric count. -/
def ingestPresence (frame : Option (Option Int)) (s : ChatState) : ChatState :=
  match frame with
  | some (some n) => { s with presenceCount := n }
  | _ => s

/-- Outcome of one `syncPresence` fetch (`useStompChat.js:108-116`). -/
inductive PresenceQueryResult where
  | netError
  | httpError (status : Nat)
  | ok (count : Option Int)
deriving DecidableEq

/-- Applying a resolved `syncPresence` call: only `r.ok` with a numeric
`count` updates the state; a network error, a non-success status (rejected
and caught) or a non-numeric `count` change nothing. -/
def syncPresenceApply (r : PresenceQueryResult) (s : ChatState) : ChatState :=
  match r with
  | PresenceQueryResult.ok (some n) => { s with presenceCount := n }
  | _ => s

/-- `triggerReconnect` (`useStompChat.js:119-142`): cold-start guard, already
connecting/connected guard, 500 ms cooldown; then transition to
`reconnecting` with the reason, notice only when `withMessage` and the
session has ever connected, and re-arm the transport.  (The two `syncPresence`
calls it fires are asynchronous fetches, modelled as separate
`syncPresenceApply` transitions.) -/
def triggerReconnect (now : Int) (reasonText : String) (withMessage : Bool)
    (s : ChatState) : ChatState :=
  if s.isColdStart then s
  else if s.connStatus = ConnStatus.connecting ∨ s.connStatus = ConnStatus.connected then s
  else if now - s.lastReconnectAt < 500 then s
  else
    let s1 := { s with lastReconnectAt := now
                       connStatus := ConnStatus.reconnecting
                       connReason := reasonText }
    let s2 := if withMessage && s.everConnected then pushSystemMessage now reasonText s1 else s1
    { s2 with client := ensureActivate s2.client }

/-- `onVisibleMaybeReconnect` (`useStompChat.js:149-155`): only when the page
is visible and the session has connected before. -/
def onVisibleHandler (now : Int) (visible : Bool) (s : ChatState) : ChatState :=
  if visible = false then s
  else if s.everConnected = false then s
  else triggerReconnect now "백그라운드에서 복귀하여 재연결 중입니다." true s

/-- `onPageShow` (`useStompChat.js:157-161`). -/
def onPageShowHandler (now : Int) (s : ChatState) : ChatState :=
  if s.everConnected = false then s
  else triggerReconnect now "페이지 복귀로 재연결 중입니다." true s

/-- `onFocus` (`useStompChat.js:163-166`): notice flag `false`. -/
def onFocusHandler (now : Int) (s : ChatState) : ChatState :=
  if s.everConnected = false then s
  else triggerReconnect now "포커스 복귀로 재연결 중입니다." false s

/-- `onOnline` (`useStompChat.js:168-170`): no ever-connected guard of its
own; it calls the trigger directly (notice flag defaults to `true`). -/
def onOnlineHandler (now : Int) (s : ChatState) : ChatState :=
  triggerReconnect now "네트워크가 온라인으로 전환되어 재연결 중입니다." true s

/-- The notice text of a send attempted while disconnected
(`useStompChat.js:281`). -/
def sendFailNotice : String := "연결이 없어 메시지를 전송할 수 없습니다. 재연결 중입니다."

/-- The disconnected branch of `send` (`useStompChat.js:276-285`). -/
def sendDisconnected (now : Int) (s : ChatState) : ChatState :=
  let s1 := { s with connStatus := ConnStatus.reconnecting
                     connReason := "send requested while disconnected" }
  let s2 := if s.everConnected then pushSystemMessage now sendFailNotice s1 else s1
  { s2 with client := ensureActivate s2.client }

/-- `send` (`useStompChat.js:274-293`).  `uid`/`nick` are
`myUserIdRef.current` / `myNicknameRef.current`. -/
def send (now : Int) (uid nick text : String) (s : ChatState) : ChatState :=
  match s.client with
  | none => sendDisconnected now s
  | some c =>
    if c.connected then
      { s with client := some { c with published := c.published ++
          [{ userId := uid, sender := nick, content := text, clientSentAt := now }] } }
    else sendDisconnected now s

/-- `onConnect` (`useStompChat.js:207-235`): `connected`, clear the reason,
remember that the session has connected, announce.  (Subscribing and the
presence fetches have no immediate state effect here.) -/
def onConnectApply (now : Int) (s : ChatState) : ChatState :=
  pushSystemMessage now "서버와 연결되었습니다."
    { s with connStatus := ConnStatus.connected
             connReason := ""
             everConnected := true }

/-- `onStompError` (`useStompChat.js:236-243`).  `m` is
`frame?.headers?.message` read through JS truthiness (`none` = absent or
empty). -/
def onStompErrorApply (now : Int) (m : Option String) (s : ChatState) : ChatState :=
  let s1 := { s with connStatus := ConnStatus.reconnecting
                     connReason := (m.getD "broker error") }
  if s.everConnected then
    pushSystemMessage now
      ("브로커 오류로 재연결 중입니다." ++
        (match m with | some t => " (" ++ t ++ ")" | none => "")) s1
  else s1

/-- `onWebSocketError` (`useStompChat.js:244-250`). -/
def onWebSocketErrorApply (now : Int) (s : ChatState) : ChatState :=
  let s1 := { s with connStatus := ConnStatus.reconnecting
                     connReason := "websocket error" }
  if s.everConnected then pushSystemMessage now "웹소켓 오류로 재연결 중입니다." s1 else s1

/-- `onWebSocketClose` (`useStompChat.js:251-258`).  `code` is `ev?.code`
read through JS truthiness (`none` = absent or `0`). -/
def onWebSocketCloseApply (now : Int) (code : Option Int) (s : ChatState) : ChatState :=
  let suffix := match code with | some c => " (code " ++ toString c ++ ")" | none => ""
  let s1 := { s with connStatus := ConnStatus.reconnecting
                     connReason := "socket closed" ++ suffix }
  if s.everConnected then
    pushSystemMessage now ("연결이 종료되어 재연결 중입니다." ++ suffix) s1
  else s1

/-- Body of the mount effect (`useStompChat.js:187-196`): status
`connecting`, reason cleared, one-time "서버에 연결을 시도합니다." notice. -/
def mountEffectApply (now : Int) (s : ChatState) : ChatState :=
  let s1 := { s with connStatus := ConnStatus.connecting, connReason := "" }
  if s.connectingAnnounced then s1
  else pushSystemMessage now "서버에 연결을 시도합니다." { s1 with connectingAnnounced := true }

/-- Folding the `/topic/public` handler over a sequence of inbound frames. -/
def ingestList (frames : List (Option Message)) (s : ChatState) : ChatState :=
  frames.foldl (fun st f => ingestPublic f st) s

/-- Number of feed entries whose `id` field equals `some i`. -/
def countId (l : List Message) (i : String) : Nat :=
  l.countP (fun m => decide (m.id = some i))

/-- The states the hook can reach within one mount lifecycle: the initial
state followed by any interleaving of its callbacks.  `coldElapse` is the
800 ms timer firing (`useStompChat.js:147`); `transport` is the external
evolution of the STOMP client object (connecting, disconnecting, draining),
which the hook does not control. -/
inductive Reachable : ChatState → Prop where
  | init : Reachable initialState
  | coldElapse {s} : Reachable s → Reachable { s with isColdStart := false }
  | transport {s} (c : Option ClientModel) : Reachable s → Reachable { s with client := c }
  | ingest {s} (f : Option Message) : Reachable s → Reachable (ingestPublic f s)
  | presence {s} (f : Option (Option Int)) : Reachable s → Reachable (ingestPresence f s)
  | query {s} (r : PresenceQueryResult) : Reachable s → Reachable (syncPresenceApply r s)
  | notice {s} (now : Int) (text : String) : Reachable s → Reachable (pushSystemMessage now text s)
  | trigger {s} (now : Int) (reason : String) (w : Bool) :
      Reachable s → Reachable (triggerReconnect now reason w s)
  | visible {s} (now : Int) (v : Bool) : Reachable s → Reachable (onVisibleHandler now v s)
  | focus {s} (now : Int) : Reachable s → Reachable (onFocusHandler now s)
  | pageShow {s} (now : Int) : Reachable s → Reachable (onPageShowHandler now s)
  | online {s} (now : Int) : Reachable s → Reachable (onOnlineHandler now s)
  | sendOp {s} (now : Int) (uid nick text : String) :
      Reachable s → Reachable (send now uid nick text s)
  | connectCb {s} (now : Int) : Reachable s → Reachable (onConnectApply now s)
  | stompErrorCb {s} (now : Int) (m : Option String) :
      Reachable s → Reachable (onStompErrorApply now m s)
  | wsErrorCb {s} (now : Int) : Reachable s → Reachable (onWebSocketErrorApply now s)
  | wsCloseCb {s} (now : Int) (code : Option Int) :
      Reachable s → Reachable (onWebSocketCloseApply now code s)
  | mount {s} (now : Int) : Reachable s → Reachable (mountEffectApply now s)

/-- `!client || !client.connected` at `useStompChat.js:276`, negated: whether
the hook's client reference is present and connected. -/
def clientConnected : Option ClientModel → Bool
  | none => false
  | some c => c.connected

/-- Ingesting the same broadcast body `n` times in a row. -/
def ingestRepeat (n : Nat) (b : Message) (s : ChatState) : ChatState :=
  ingestList (List.replicate n (some b)) s

/-- The feed ordering invariant actually maintained by the code: every
adjacent pair is ordered by `feedLe` (creation-else-send-else-zero timestamp,
ties broken by the effective `seq`, non-strictly). -/
def FeedSorted (l : List Message) : Prop :=
  l.Pairwise (fun a b => feedLe a b = true)

/-- The strict tie-break property as the spec states it: any two entries with
equal ordering keys are ordered strictly by ascending sequence number. -/
def StrictTieBreak (l : List Message) : Prop :=
  l.Pairwise (fun a b => toTs a = toTs b → toSeq a < toSeq b)

/-- Helper measure for the dedup invariant: entries bearing `i` plus one
spare slot when `i` is not yet in the ledger. -/
def dedupBound (i : String) (s : ChatState) : Nat :=
  countId s.messages i + (if i ∈ s.seenIds then 0 else 1)

/-! ### Helper lemmas -/

theorem feedLe_iff (a b : Message) :
    feedLe a b = true ↔ toTs a < toTs b ∨ (toTs a = toTs b ∧ toSeq a ≤ toSeq b) := by
  unfold feedLe
  by_cases h : toTs a = toTs b <;> simp [h]

theorem feedLe_trans : ∀ a b c : Message,
    feedLe a b = true → feedLe b c = true → feedLe a c = true := by
  intro a b c hab hbc
  rw [feedLe_iff] at hab hbc ⊢
  omega

theorem feedLe_total : ∀ a b : Message, (feedLe a b || feedLe b a) = true := by
  intro a b
  simp only [Bool.or_eq_true, feedLe_iff]
  omega

instance : IsTrans Message (fun a b : Message => feedLe a b = true) where
  trans := feedLe_trans

instance : IsTotal Message (fun a b : Message => feedLe a b = true) where
  total a b := by simpa [Bool.or_eq_true] using feedLe_total a b

theorem sorted_sortByTimestamp (l : List Message) : FeedSorted (sortByTimestamp l) :=
  List.sorted_insertionSort (fun a b => feedLe a b = true) l

theorem perm_sortByTimestamp (l : List Message) : (sortByTimestamp l).Perm l :=
  List.perm_insertionSort (fun a b => feedLe a b = true) l

theorem length_sortByTimestamp (l : List Message) :
    (sortByTimestamp l).length = l.length :=
  (perm_sortByTimestamp l).length_eq

theorem countP_sortByTimestamp (p : Message → Bool) (l : List Message) :
    (sortByTimestamp l).countP p = l.countP p :=
  (perm_sortByTimestamp l).countP_eq p

theorem push_suppressed {now : Int} {text : String} {s : ChatState}
    (h : now - (lookupTs s.recentSysMap text).getD 0 < 3000) :
    pushSystemMessage now text s = s := by
  simp [pushSystemMessage, h]

theorem push_emit {now : Int} {text : String} {s : ChatState}
    (h : ¬ now - (lookupTs s.recentSysMap text).getD 0 < 3000) :
    pushSystemMessage now text s =
      { s with recentSysMap := insertTs s.recentSysMap text now
               sysSeq := s.sysSeq + 1
               messages := sortByTimestamp (s.messages ++ [sysMsg now text s.sysSeq]) } := by
  simp [pushSystemMessage, h]

theorem push_connStatus (now : Int) (text : String) (s : ChatState) :
    (pushSystemMessage now text s).connStatus = s.connStatus := by
  simp only [pushSystemMessage]; split <;> rfl

theorem push_connReason (now : Int) (text : String) (s : ChatState) :
    (pushSystemMessage now text s).connReason = s.connReason := by
  simp only [pushSystemMessage]; split <;> rfl

theorem push_isColdStart (now : Int) (text : String) (s : ChatState) :
    (pushSystemMessage now text s).isColdStart = s.isColdStart := by
  simp only [pushSystemMessage]; split <;> rfl

theorem push_lastReconnectAt (now : Int) (text : String) (s : ChatState) :
    (pushSystemMessage now text s).lastReconnectAt = s.lastReconnectAt := by
  simp only [pushSystemMessage]; split <;> rfl

theorem push_client (now : Int) (text : String) (s : ChatState) :
    (pushSystemMessage now text s).client = s.client := by
  simp only [pushSystemMessage]; split <;> rfl

theorem push_everConnected (now : Int) (text : String) (s : ChatState) :
    (pushSystemMessage now text s).everConnected = s.everConnected := by
  simp only [pushSystemMessage]; split <;> rfl

theorem push_seenIds (now : Int) (text : String) (s : ChatState) :
    (pushSystemMessage now text s).seenIds = s.seenIds := by
  simp only [pushSystemMessage]; split <;> rfl

theorem push_sorted {s : ChatState} (now : Int) (text : String)
    (h : FeedSorted s.messages) : FeedSorted (pushSystemMessage now text s).messages := by
  simp only [pushSystemMessage]
  split
  · exact h
  · exact sorted_sortByTimestamp _

theorem ingest_sorted {s : ChatState} (f : Option Message)
    (h : FeedSorted s.messages) : FeedSorted (ingestPublic f s).messages := by
  cases f with
  | none => exact h
  | some body =>
    simp only [ingestPublic]
    cases idOf body with
    | none => exact sorted_sortByTimestamp _
    | some i =>
      dsimp only
      split
      · exact h
      · exact sorted_sortByTimestamp _

theorem trigger_sorted {s : ChatState} (now : Int) (reason : String) (w : Bool)
    (h : FeedSorted s.messages) :
    FeedSorted (triggerReconnect now reason w s).messages := by
  simp only [triggerReconnect]
  split
  · exact h
  split
  · exact h
  split
  · exact h
  split
  · exact push_sorted _ _ h
  · exact h

theorem sendDisconnected_sorted {s : ChatState} (now : Int)
    (h : FeedSorted s.messages) : FeedSorted (sendDisconnected now s).messages := by
  simp only [sendDisconnected]
  split
  · exact push_sorted _ _ h
  · exact h

theorem send_sorted {s : ChatState} (now : Int) (uid nick text : String)
    (h : FeedSorted s.messages) : FeedSorted (send now uid nick text s).messages := by
  simp only [send]
  cases s.client with
  | none => exact sendDisconnected_sorted _ h
  | some c =>
    dsimp only
    split
    · exact h
    · exact sendDisconnected_sorted _ h

/-- **Main ordering invariant.**  Every state the hook can reach has a feed
ordered by `feedLe` (timestamp, then effective sequence number). -/
theorem reachable_feedSorted {s : ChatState} (h : Reachable s) : FeedSorted s.messages := by
  induction h with
  | init => exact List.Pairwise.nil
  | coldElapse _ ih => exact ih
  | transport _ _ ih => exact ih
  | ingest f _ ih => exact ingest_sorted f ih
  | presence f _ ih =>
    cases f with
    | none => exact ih
    | some c => cases c <;> exact ih
  | query r _ ih => cases r with
    | netError => exact ih
    | httpError _ => exact ih
    | ok c => cases c <;> exact ih
  | notice now text _ ih => exact push_sorted now text ih
  | trigger now reason w _ ih => exact trigger_sorted now reason w ih
  | visible now v _ ih =>
    simp only [onVisibleHandler]
    split
    · exact ih
    split
    · exact ih
    · exact trigger_sorted _ _ _ ih
  | focus now _ ih =>
    simp only [onFocusHandler]
    split
    · exact ih
    · exact trigger_sorted _ _ _ ih
  | pageShow now _ ih =>
    simp only [onPageShowHandler]
    split
    · exact ih
    · exact trigger_sorted _ _ _ ih
  | online now _ ih => exact trigger_sorted _ _ _ ih
  | sendOp now uid nick text _ ih => exact send_sorted now uid nick text ih
  | connectCb now _ ih => exact push_sorted _ _ ih
  | stompErrorCb now m _ ih =>
    simp only [onStompErrorApply]
    split
    · exact push_sorted _ _ ih
    · exact ih
  | wsErrorCb now _ ih =>
    simp only [onWebSocketErrorApply]
    split
    · exact push_sorted _ _ ih
    · exact ih
  | wsCloseCb now code _ ih =>
    simp only [onWebSocketCloseApply]
    split
    · exact push_sorted _ _ ih
    · exact ih
  | mount now _ ih =>
    simp only [mountEffectApply]
    split
    · exact ih
    · exact push_sorted _ _ ih

theorem countId_sortByTimestamp (l : List Message) (i : String) :
    countId (sortByTimestamp l) i = countId l i :=
  countP_sortByTimestamp _ l

theorem idOf_eq_some {body : Message} {j : String} (h : idOf body = some j) :
    body.id = some j ∧ j ≠ "" := by
  unfold idOf at h
  cases hb : body.id with
  | none => rw [hb] at h; exact absurd h (by simp)
  | some k =>
    rw [hb] at h
    by_cases hk : k = ""
    · simp [hk] at h
    · simp [hk] at h
      subst h
      exact ⟨rfl, hk⟩

theorem idOf_eq_none {body : Message} (h : idOf body = none) :
    body.id = none ∨ body.id = some "" := by
  unfold idOf at h
  cases hb : body.id with
  | none => exact Or.inl rfl
  | some k =>
    rw [hb] at h
    by_cases hk : k = ""
    · exact Or.inr (by rw [hk])
    · simp [hk] at h

theorem ingest_dedupBound (f : Option Message) (s : ChatState) (i : String)
    (hne : i ≠ "") : dedupBound i (ingestPublic f s) ≤ dedupBound i s := by
  cases f with
  | none => exact Nat.le_refl _
  | some body =>
    simp only [ingestPublic]
    cases hid : idOf body with
    | none =>
      have hb : decide (body.id = some i) = false := by
        rcases idOf_eq_none hid with h | h
        · simp [h]
        · simp [h, Ne.symm hne]
      dsimp only
      unfold dedupBound countId
      dsimp only
      rw [countP_sortByTimestamp, List.countP_append]
      simp [hb]
    | some j =>
      dsimp only
      split
      · exact Nat.le_refl _
      · rename_i hmem
        obtain ⟨hbj, hjne⟩ := idOf_eq_some hid
        unfold dedupBound countId
        dsimp only
        rw [countP_sortByTimestamp, List.countP_append]
        by_cases hji : j = i
        · subst hji
          simp [hbj, List.mem_cons, hmem]
        · have hii : i ≠ j := fun hc => hji hc.symm
          simp [hbj, hji, List.mem_cons, hii]

theorem ingestList_cons (f : Option Message) (fs : List (Option Message)) (s : ChatState) :
    ingestList (f :: fs) s = ingestList fs (ingestPublic f s) := rfl

theorem ingestList_dedupBound (frames : List (Option Message)) (i : String)
    (hne : i ≠ "") : ∀ s : ChatState, dedupBound i (ingestList frames s) ≤ dedupBound i s := by
  induction frames with
  | nil => intro s; exact Nat.le_refl _
  | cons f fs ih =>
    intro s
    rw [ingestList_cons]
    exact Nat.le_trans (ih (ingestPublic f s)) (ingest_dedupBound f s i hne)

theorem ingest_noId {s : ChatState} {b : Message} (h : b.id = none) :
    (ingestPublic (some b) s).messages.length = s.messages.length + 1 ∧
    (ingestPublic (some b) s).seenIds = s.seenIds := by
  have hid : idOf b = none := by unfold idOf; rw [h]
  simp only [ingestPublic, hid]
  refine ⟨?_, trivial⟩
  rw [length_sortByTimestamp]
  simp

theorem trigger_coldStart {s : ChatState} (now : Int) (r : String) (w : Bool)
    (h : s.isColdStart = true) : triggerReconnect now r w s = s := by
  simp [triggerReconnect, h]

theorem trigger_cooldown {s : ChatState} (now : Int) (r : String) (w : Bool)
    (hcold : s.isColdStart = false) (hcd : now - s.lastReconnectAt < 500) :
    triggerReconnect now r w s = s := by
  simp only [triggerReconnect, hcold, Bool.false_eq_true, if_false]
  split <;> rfl

theorem trigger_accepted_fields {s : ChatState} (now : Int) (r : String) (w : Bool)
    (hcold : s.isColdStart = false)
    (hc1 : s.connStatus ≠ ConnStatus.connecting) (hc2 : s.connStatus ≠ ConnStatus.connected)
    (hcd : ¬ now - s.lastReconnectAt < 500) :
    (triggerReconnect now r w s).connStatus = ConnStatus.reconnecting
    ∧ (triggerReconnect now r w s).lastReconnectAt = now
    ∧ (triggerReconnect now r w s).isColdStart = false
    ∧ (triggerReconnect now r w s).connReason = r := by
  simp only [triggerReconnect, hcold, Bool.false_eq_true, if_false]
  rw [if_neg (by simp [hc1, hc2]), if_neg hcd]
  refine ⟨?_, ?_, ?_, ?_⟩ <;>
    (dsimp only; split <;>
      simp [push_connStatus, push_lastReconnectAt, push_isColdStart, push_connReason, hcold])

theorem trigger_no_notice {s : ChatState} (now : Int) (r : String) (w : Bool)
    (h : s.everConnected = false) :
    (triggerReconnect now r w s).messages = s.messages
    ∧ (triggerReconnect now r w s).recentSysMap = s.recentSysMap
    ∧ (triggerReconnect now r w s).sysSeq = s.sysSeq := by
  simp only [triggerReconnect]
  split
  · exact ⟨rfl, rfl, rfl⟩
  split
  · exact ⟨rfl, rfl, rfl⟩
  split
  · exact ⟨rfl, rfl, rfl⟩
  · simp [h]

theorem lookupTs_insert_self (m : List (String × Int)) (key : String) (v : Int) :
    lookupTs (insertTs m key v) key = some v := by
  induction m with
  | nil => simp [insertTs, lookupTs]
  | cons p rest ih =>
    obtain ⟨k, w⟩ := p
    by_cases hk : k = key
    · simp [insertTs, lookupTs, hk]
    · simp [insertTs, lookupTs, hk, ih]

theorem push_emit_len {now : Int} {text : String} {s : ChatState}
    (h : ¬ now - (lookupTs s.recentSysMap text).getD 0 < 3000) :
    (pushSystemMessage now text s).messages.length = s.messages.length + 1 := by
  rw [push_emit h]
  dsimp only
  rw [length_sortByTimestamp]
  simp

theorem push_emit_map {now : Int} {text : String} {s : ChatState}
    (h : ¬ now - (lookupTs s.recentSysMap text).getD 0 < 3000) :
    (pushSystemMessage now text s).recentSysMap = insertTs s.recentSysMap text now := by
  rw [push_emit h]

theorem push_emit_countP {now : Int} {text : String} {s : ChatState} (p : Message → Bool)
    (h : ¬ now - (lookupTs s.recentSysMap text).getD 0 < 3000)
    (hp : p (sysMsg now text s.sysSeq) = true) :
    (pushSystemMessage now text s).messages.countP p = s.messages.countP p + 1 := by
  rw [push_emit h]
  dsimp only
  rw [countP_sortByTimestamp, List.countP_append]
  simp [hp]

/-! ### Claims -/

/-- Claim C1, counterexample to the claim as stated.  Two inbound broadcast
frames carrying equal creation timestamps and no `seq` field are both kept
(in stable arrival order), but no per-session sequence number is assigned to
ingested frames: both have effective sequence number `0`, so the two
equal-key entries are *not* ordered strictly by ascending sequence number. -/
theorem c1_counterexample :
    Reachable (ingestPublic (some { content := some "b", createdAt := some 100 })
      (ingestPublic (some { content := some "a", createdAt := some 100 }) initialState))
    ∧ ¬ StrictTieBreak (ingestPublic (some { content := some "b", createdAt := some 100 })
      (ingestPublic (some { content := some "a", createdAt := some 100 }) initialState)).messages := by
  refine ⟨Reachable.ingest _ (Reachable.ingest _ Reachable.init), ?_⟩
  intro hP
  have hm : (ingestPublic (some { content := some "b", createdAt := some 100 })
      (ingestPublic (some { content := some "a", createdAt := some 100 })
        initialState)).messages
      = [{ content := some "a", createdAt := some 100 },
         { content := some "b", createdAt := some 100 }] := by decide
  rw [hm] at hP
  cases hP with
  | cons h1 _ =>
    have h2 := h1 _ (List.mem_cons_self _ _) (by decide)
    exact absurd h2 (by decide)

/-- Claim C1 (amended): for every reachable feed state, every adjacent pair
`(a, b)` of the feed satisfies `orderingKey a ≤ orderingKey b` (creation
timestamp if present, else send timestamp, else epoch zero), with ties broken
by ascending effective sequence number *non-strictly*: only system notices
are assigned the strictly increasing per-session sequence number, so ingested
frames without a `seq` field may tie at effective sequence `0` and keep their
stable insertion order. -/
theorem c1_feed_ordering {s : ChatState} (h : Reachable s) : FeedSorted s.messages :=
  reachable_feedSorted h

/-- Claim C1, witness: the ordering invariant evaluated on a concrete
reachable state. -/
theorem c1_feed_ordering_witness :
    FeedSorted (ingestPublic (some { content := some "a", createdAt := some 5 })
      initialState).messages :=
  c1_feed_ordering (Reachable.ingest _ Reachable.init)

/-- Claim C2, counterexample to the claim as stated.  A system notice pushed
at `now = 100000` with session sequence `0` gets the synthetic id
`system-100000-0`, which is *not* recorded in the dedup ledger; a subsequent
inbound broadcast frame bearing exactly that identifier is therefore not
deduplicated against it, and the feed ends up with two entries carrying the
identifier. -/
theorem c2_counterexample :
    Reachable (ingestPublic (some { id := some "system-100000-0", content := some "dup" })
      (pushSystemMessage 100000 "hello" initialState))
    ∧ countId (ingestPublic (some { id := some "system-100000-0", content := some "dup" })
        (pushSystemMessage 100000 "hello" initialState)).messages "system-100000-0" = 2 := by
  refine ⟨Reachable.ingest _ (Reachable.notice 100000 "hello" Reachable.init), ?_⟩
  decide

/-- Claim C2 (amended): for every non-empty server identifier `i`, ingesting
any sequence of inbound broadcast frames adds at most one feed entry bearing
`i` beyond those already present — a frame whose id is already in the dedup
ledger leaves the state unchanged.  (Beyond the claim as stated: a locally
synthesized system notice can carry an equal id string without being subject
to this dedup, and an empty-string id is treated as absent.) -/
theorem c2_dedup_bound (s : ChatState) (frames : List (Option Message)) (i : String)
    (hne : i ≠ "") :
    countId (ingestList frames s).messages i ≤ countId s.messages i + 1 := by
  have h := ingestList_dedupBound frames i hne s
  unfold dedupBound at h
  have h1 : (if i ∈ s.seenIds then 0 else 1) ≤ 1 := by split <;> omega
  omega

/-- Claim C2, witness: two frames bearing id `m1` from the initial state
yield at most one entry with that id. -/
theorem c2_dedup_bound_witness :
    countId (ingestList [some { id := some "m1", content := some "x" },
        some { id := some "m1", content := some "y" }] initialState).messages "m1"
      ≤ countId initialState.messages "m1" + 1 :=
  c2_dedup_bound initialState _ "m1" (by decide)

/-- Claim C3: while the cold-start flag is still set (the first 800 ms after
mount, before the timer at `useStompChat.js:147` clears it), the reconnect
trigger returns without mutating any state, and so does every resumption
signal handler (visibility, pageshow, focus, online): no connection-state
transition, no system notice. -/
theorem c3_cold_start (s : ChatState) (now : Int) (r : String) (w v : Bool)
    (h : s.isColdStart = true) :
    triggerReconnect now r w s = s
    ∧ onVisibleHandler now v s = s
    ∧ onPageShowHandler now s = s
    ∧ onFocusHandler now s = s
    ∧ onOnlineHandler now s = s := by
  have ht : ∀ r' w', triggerReconnect now r' w' s = s :=
    fun r' w' => trigger_coldStart now r' w' h
  refine ⟨ht r w, ?_, ?_, ?_, ht _ _⟩
  · simp only [onVisibleHandler]
    split
    · rfl
    split
    · rfl
    · exact ht _ _
  · simp only [onPageShowHandler]
    split
    · rfl
    · exact ht _ _
  · simp only [onFocusHandler]
    split
    · rfl
    · exact ht _ _

/-- Claim C3, witness at the initial state (cold-start flag set). -/
theorem c3_cold_start_witness :
    triggerReconnect 100 "r" true initialState = initialState
    ∧ onVisibleHandler 100 true initialState = initialState
    ∧ onPageShowHandler 100 initialState = initialState
    ∧ onFocusHandler 100 initialState = initialState
    ∧ onOnlineHandler 100 initialState = initialState :=
  c3_cold_start initialState 100 "r" true true rfl

/-- Claim C4: two reconnect triggers 100 ms apart, both after the cold-start
window and both from a state that is neither `connecting` nor `connected`,
produce exactly one transition: the first is accepted and moves the state to
`reconnecting`, the second is ignored by the 500 ms cooldown and changes
nothing. -/
theorem c4_cooldown (s : ChatState) (t1 : Int) (r1 r2 : String) (w1 w2 : Bool)
    (hcold : s.isColdStart = false)
    (hc1 : s.connStatus ≠ ConnStatus.connecting)
    (hc2 : s.connStatus ≠ ConnStatus.connected)
    (hcd : ¬ t1 - s.lastReconnectAt < 500) :
    (triggerReconnect t1 r1 w1 s).connStatus = ConnStatus.reconnecting
    ∧ triggerReconnect (t1 + 100) r2 w2 (triggerReconnect t1 r1 w1 s)
        = triggerReconnect t1 r1 w1 s := by
  obtain ⟨hst, hlast, hcold2, _⟩ := trigger_accepted_fields t1 r1 w1 hcold hc1 hc2 hcd
  refine ⟨hst, ?_⟩
  apply trigger_cooldown _ _ _ hcold2
  rw [hlast]
  omega

/-- Claim C4, witness: a concrete disconnected post-cold-start state. -/
theorem c4_cooldown_witness :
    (triggerReconnect 10000 "r1" true
        { initialState with isColdStart := false
                            connStatus := ConnStatus.disconnected }).connStatus
      = ConnStatus.reconnecting
    ∧ triggerReconnect 10100 "r2" true (triggerReconnect 10000 "r1" true
        { initialState with isColdStart := false
                            connStatus := ConnStatus.disconnected })
      = triggerReconnect 10000 "r1" true
        { initialState with isColdStart := false
                            connStatus := ConnStatus.disconnected } :=
  c4_cooldown _ 10000 "r1" "r2" true true rfl (by decide) (by decide) (by decide)

/-- Claim C5: before the session has ever reached `connected`
(`everConnected = false`), no resumption signal — visibility, pageshow,
focus, or network-online — emits a system notice, for any timing and any
gate state: the feed is unchanged (and the online path, the only one that
may still transition the connection state, also leaves the notice ledger
untouched). -/
theorem c5_first_connection_silence (s : ChatState) (now : Int) (v : Bool)
    (h : s.everConnected = false) :
    (onVisibleHandler now v s).messages = s.messages
    ∧ (onPageShowHandler now s).messages = s.messages
    ∧ (onFocusHandler now s).messages = s.messages
    ∧ (onOnlineHandler now s).messages = s.messages
    ∧ (onOnlineHandler now s).recentSysMap = s.recentSysMap := by
  have ht := trigger_no_notice (s := s) now "네트워크가 온라인으로 전환되어 재연결 중입니다." true h
  refine ⟨?_, ?_, ?_, ht.1, ht.2.1⟩
  · simp [onVisibleHandler, h]
  · simp [onPageShowHandler, h]
  · simp [onFocusHandler, h]

/-- Claim C5, witness at a never-connected state with the gates open
(cold-start over, cooldown long expired). -/
theorem c5_first_connection_silence_witness :
    (onVisibleHandler 10000 true { initialState with isColdStart := false }).messages
        = ({ initialState with isColdStart := false } : ChatState).messages
    ∧ (onPageShowHandler 10000 { initialState with isColdStart := false }).messages
        = ({ initialState with isColdStart := false } : ChatState).messages
    ∧ (onFocusHandler 10000 { initialState with isColdStart := false }).messages
        = ({ initialState with isColdStart := false } : ChatState).messages
    ∧ (onOnlineHandler 10000 { initialState with isColdStart := false }).messages
        = ({ initialState with isColdStart := false } : ChatState).messages
    ∧ (onOnlineHandler 10000 { initialState with isColdStart := false }).recentSysMap
        = ({ initialState with isColdStart := false } : ChatState).recentSysMap :=
  c5_first_connection_silence _ 10000 true rfl

/-- Claim C6, counterexample to the claim as stated.  A send attempted while
disconnected, in a session that has already connected, emits *no* notice when
the same notice text was shown less than 3000 ms earlier (here by a prior
failed send 1000 ms before): the 3-second suppression window of
`pushSystemMessage` applies to the send-failure notice too, so "exactly one
system notice appears provided the session has connected" is false. -/
theorem c6_counterexample :
    Reachable (pushSystemMessage 99000 sendFailNotice (onConnectApply 50000 initialState))
    ∧ (pushSystemMessage 99000 sendFailNotice
        (onConnectApply 50000 initialState)).everConnected = true
    ∧ clientConnected (pushSystemMessage 99000 sendFailNotice
        (onConnectApply 50000 initialState)).client = false
    ∧ (send 100000 "u" "n" "hi" (pushSystemMessage 99000 sendFailNotice
          (onConnectApply 50000 initialState))).messages
        = (pushSystemMessage 99000 sendFailNotice
            (onConnectApply 50000 initialState)).messages := by
  exact ⟨Reachable.notice 99000 sendFailNotice (Reachable.connectCb 50000 Reachable.init),
    by decide, by decide, by decide⟩

/-- Claim C6 (amended): for every send invocation while the transport is
absent or not connected, no publish occurs (the client's published list is
untouched), the status becomes `reconnecting` with reason
"send requested while disconnected", and the transport is re-armed
(`ensureActivate`); provided the session has ever connected *and* the
send-failure notice text is not suppressed by the 3-second window, exactly
one system notice is appended; before the first connection the feed is
unchanged. -/
theorem c6_send_disconnected (s : ChatState) (now : Int) (uid nick text : String)
    (hdis : clientConnected s.client = false)
    (hfresh : ¬ now - (lookupTs s.recentSysMap sendFailNotice).getD 0 < 3000) :
    (send now uid nick text s).client = ensureActivate s.client
    ∧ (send now uid nick text s).connStatus = ConnStatus.reconnecting
    ∧ (send now uid nick text s).connReason = "send requested while disconnected"
    ∧ (s.everConnected = true →
        (send now uid nick text s).messages.length = s.messages.length + 1
        ∧ (send now uid nick text s).messages.countP
            (fun m => decide (m.content = some sendFailNotice ∧ m.system = some true))
          = s.messages.countP
              (fun m => decide (m.content = some sendFailNotice ∧ m.system = some true)) + 1)
    ∧ (s.everConnected = false → (send now uid nick text s).messages = s.messages) := by
  have hsend : send now uid nick text s = sendDisconnected now s := by
    unfold send
    cases hc : s.client with
    | none => rfl
    | some c =>
      have hcf : c.connected = false := by
        unfold clientConnected at hdis
        rw [hc] at hdis
        exact hdis
      simp [hcf]
  rw [hsend]
  unfold sendDisconnected
  cases hE : s.everConnected with
  | false =>
    dsimp only
    exact ⟨rfl, rfl, rfl, fun h => absurd h (by simp), fun _ => rfl⟩
  | true =>
    dsimp only
    rw [if_pos rfl]
    refine ⟨?_, ?_, ?_, fun _ => ⟨?_, ?_⟩, fun h => absurd h (by simp)⟩
    · rw [push_client]
    · rw [push_connStatus]
    · rw [push_connReason]
    · exact push_emit_len hfresh
    · exact push_emit_countP _ hfresh (by simp [sysMsg])

/-- Claim C6, witness: a disconnected send from a fresh ever-connected state
publishes nothing, forces `reconnecting`, and appends exactly one notice. -/
theorem c6_send_disconnected_witness :
    (send 100000 "u" "n" "hi" { initialState with everConnected := true }).client
        = ensureActivate ({ initialState with everConnected := true } : ChatState).client
    ∧ (send 100000 "u" "n" "hi" { initialState with everConnected := true }).connStatus
        = ConnStatus.reconnecting
    ∧ (send 100000 "u" "n" "hi" { initialState with everConnected := true }).connReason
        = "send requested while disconnected"
    ∧ (({ initialState with everConnected := true } : ChatState).everConnected = true →
        (send 100000 "u" "n" "hi" { initialState with everConnected := true }).messages.length
            = ({ initialState with everConnected := true } : ChatState).messages.length + 1
        ∧ (send 100000 "u" "n" "hi" { initialState with everConnected := true }).messages.countP
            (fun m => decide (m.content = some sendFailNotice ∧ m.system = some true))
          = ({ initialState with everConnected := true } : ChatState).messages.countP
              (fun m => decide (m.content = some sendFailNotice ∧ m.system = some true)) + 1)
    ∧ (({ initialState with everConnected := true } : ChatState).everConnected = false →
        (send 100000 "u" "n" "hi" { initialState with everConnected := true }).messages
            = ({ initialState with everConnected := true } : ChatState).messages) :=
  c6_send_disconnected _ 100000 "u" "n" "hi" (by decide) (by decide)

/-- Claim C7: requesting a system notice with the same text twice within
3000 ms yields exactly one feed entry — the second request returns with the
state untouched — and requesting it again at least 3000 ms after the last
*shown* occurrence yields a second entry. -/
theorem c7_notice_suppression (s : ChatState) (t1 t2 t3 : Int) (text : String)
    (h1 : ¬ t1 - (lookupTs s.recentSysMap text).getD 0 < 3000)
    (h2 : t2 - t1 < 3000)
    (h3 : ¬ t3 - t1 < 3000) :
    (pushSystemMessage t1 text s).messages.length = s.messages.length + 1
    ∧ pushSystemMessage t2 text (pushSystemMessage t1 text s) = pushSystemMessage t1 text s
    ∧ (pushSystemMessage t3 text (pushSystemMessage t2 text
        (pushSystemMessage t1 text s))).messages.length = s.messages.length + 2 := by
  have hl1 := push_emit_len h1
  have hlook : lookupTs (pushSystemMessage t1 text s).recentSysMap text = some t1 := by
    rw [push_emit_map h1]
    exact lookupTs_insert_self _ _ _
  have hsup : pushSystemMessage t2 text (pushSystemMessage t1 text s)
      = pushSystemMessage t1 text s := by
    apply push_suppressed
    rw [hlook]
    simpa using h2
  have hl3 : (pushSystemMessage t3 text (pushSystemMessage t1 text s)).messages.length
      = (pushSystemMessage t1 text s).messages.length + 1 := by
    apply push_emit_len
    rw [hlook]
    simpa using h3
  refine ⟨hl1, hsup, ?_⟩
  rw [hsup, hl3, hl1]

/-- Claim C7, witness: same text at 100000 ms, 101000 ms (suppressed) and
103500 ms (shown again). -/
theorem c7_notice_suppression_witness :
    (pushSystemMessage 100000 "x" initialState).messages.length
        = initialState.messages.length + 1
    ∧ pushSystemMessage 101000 "x" (pushSystemMessage 100000 "x" initialState)
        = pushSystemMessage 100000 "x" initialState
    ∧ (pushSystemMessage 103500 "x" (pushSystemMessage 101000 "x"
        (pushSystemMessage 100000 "x" initialState))).messages.length
        = initialState.messages.length + 2 :=
  c7_notice_suppression initialState 100000 101000 103500 "x"
    (by decide) (by decide) (by decide)

/-- Claim C8: a malformed inbound frame (body that fails to parse) is dropped
silently on both broadcast channels: the entire state — feed, presence count,
connection state, dedup ledger — is unchanged and no notice is emitted. -/
theorem c8_malformed_dropped (s : ChatState) :
    ingestPublic none s = s ∧ ingestPresence none s = s :=
  ⟨rfl, rfl⟩

/-- Claim C9: a failed presence query (network error, or non-success HTTP
status, whose rejection the `catch` swallows) and a success response whose
`count` is not a number all leave the state unchanged; only a success
response with a numeric `count` updates the presence count. -/
theorem c9_presence_query (s : ChatState) (status : Nat) (n : Int) :
    syncPresenceApply PresenceQueryResult.netError s = s
    ∧ syncPresenceApply (PresenceQueryResult.httpError status) s = s
    ∧ syncPresenceApply (PresenceQueryResult.ok none) s = s
    ∧ syncPresenceApply (PresenceQueryResult.ok (some n)) s
        = { s with presenceCount := n } :=
  ⟨rfl, rfl, rfl, rfl⟩

/-- Claim C10: an inbound broadcast body carrying no server identifier is
never deduplicated: ingesting it `n` times appends `n` feed entries, and the
dedup ledger is never touched. -/
theorem c10_no_id_no_dedup (s : ChatState) (b : Message) (n : Nat) (h : b.id = none) :
    (ingestRepeat n b s).messages.length = s.messages.length + n
    ∧ (ingestRepeat n b s).seenIds = s.seenIds := by
  induction n generalizing s with
  | zero => exact ⟨rfl, rfl⟩
  | succ k ih =>
    have step := ingest_noId (s := s) h
    have ihs := ih (ingestPublic (some b) s)
    have hrep : ingestRepeat (k + 1) b s = ingestRepeat k b (ingestPublic (some b) s) := by
      unfold ingestRepeat
      rw [List.replicate_succ, ingestList_cons]
    rw [hrep]
    refine ⟨?_, ?_⟩
    · rw [ihs.1, step.1]
      omega
    · rw [ihs.2, step.2]

/-- Claim C10, witness: the same id-less body twice from the initial state
gives two feed entries and an empty dedup ledger. -/
theorem c10_no_id_no_dedup_witness :
    (ingestRepeat 2 { content := some "hey" } initialState).messages.length
        = initialState.messages.length + 2
    ∧ (ingestRepeat 2 { content := some "hey" } initialState).seenIds
        = initialState.seenIds :=
  c10_no_id_no_dedup initialState { content := some "hey" } 2 rfl

end StompChat
